import Mathlib

/-!
Shallow embedding of the cordova-res resource-resolution-and-generation
pipeline: the resource catalog and validators (`resources.ts`), the source
resolver and image generator (`image.ts`), and a spec-modelled platform
runner, together with theorems settling the frozen claims about them.
-/

namespace CordovaRes

/-- Platforms supported by the resource catalog (`platform.ts`). -/
inductive Platform
  | android
  | ios
  deriving DecidableEq

/-- Resource types (`resources.ts`, `ResourceType`). -/
inductive ResourceType
  | icon
  | splash
  deriving DecidableEq

/-- Image metadata as reported by the sharp pipeline: `format`, `width`,
`height`.  In JavaScript `width`/`height` may be `undefined`, modelled as
`none`. -/
structure Metadata where
  format : String
  width : Option Nat
  height : Option Nat
  deriving DecidableEq

/-- Validation error codes (`error.ts`, `ValidationErrorCode`). -/
inductive ValidationErrorCode
  | BAD_IMAGE_FORMAT
  | BAD_IMAGE_SIZE
  deriving DecidableEq

/-- Structured validation error thrown by the validators (`error.ts`,
`ValidationError`): message plus the metadata payload. -/
structure ValidationError where
  message : String
  source : String
  type : ResourceType
  code : ValidationErrorCode
  deriving DecidableEq

/-- JavaScript falsiness of an optional number: `undefined` and `0` are
falsy (`!width`). -/
def falsy : Option Nat → Bool
  | none => true
  | some n => n == 0

/-- JavaScript comparison `d < req` on a possibly-undefined number:
`undefined < req` is `false` (`NaN` comparison). -/
def dimLt (d : Option Nat) (req : Nat) : Bool :=
  match d with
  | none => false
  | some n => n < req

/-- Render a possibly-undefined dimension the way template interpolation
does in the error messages. -/
def showDim : Option Nat → String
  | none => "undefined"
  | some n => toString n

/-- Icon validator (`resources.ts`, `RESOURCE_VALIDATORS[ResourceType.ICON]`). -/
def validateIcon (source : String) (m : Metadata) : Except ValidationError Unit :=
  let format := m.format
  let width := m.width
  let height := m.height
  let requiredFormat := "png"
  let requiredWidth := 1024
  let requiredHeight := 1024
  if format != requiredFormat then
    .error
      { message := "Icon source must be " ++ requiredFormat ++ " format (image format is \"" ++ format ++ "\")."
        source
        type := .icon
        code := .BAD_IMAGE_FORMAT }
  else if falsy width || falsy height || dimLt width requiredWidth || dimLt height requiredHeight then
    .error
      { message := "Icon source does not meet minimum size requirements: " ++ toString requiredWidth ++ "x" ++ toString requiredHeight ++ " (image is " ++ showDim width ++ "x" ++ showDim height ++ ")."
        source
        type := .icon
        code := .BAD_IMAGE_SIZE }
  else
    .ok ()

/-- Splash validator (`resources.ts`, `RESOURCE_VALIDATORS[ResourceType.SPLASH]`). -/
def validateSplash (source : String) (m : Metadata) : Except ValidationError Unit :=
  let format := m.format
  let width := m.width
  let height := m.height
  let requiredFormat := "png"
  let requiredWidth := 2732
  let requiredHeight := 2732
  if format != requiredFormat then
    .error
      { message := "Splash Screen source must be " ++ requiredFormat ++ " format (image format is \"" ++ format ++ "\")."
        source
        type := .splash
        code := .BAD_IMAGE_FORMAT }
  else if falsy width || falsy height || dimLt width requiredWidth || dimLt height requiredHeight then
    .error
      { message := "Splash Screen source does not meet minimum size requirements: " ++ toString requiredWidth ++ "x" ++ toString requiredHeight ++ " (image is " ++ showDim width ++ "x" ++ showDim height ++ ")."
        source
        type := .splash
        code := .BAD_IMAGE_SIZE }
  else
    .ok ()

/-- Per-type validator dispatch (`resources.ts`, `RESOURCE_VALIDATORS`). -/
def RESOURCE_VALIDATORS : ResourceType → String → Metadata → Except ValidationError Unit
  | .icon => validateIcon
  | .splash => validateSplash

/-- Orientation tags (`resources.ts`, `Orientation`). -/
inductive Orientation
  | landscape
  | portrait
  deriving DecidableEq

/-- Density tags (`resources.ts`, `Density`). -/
inductive Density
  | ldpi | mdpi | hdpi | xhdpi | xxhdpi | xxxhdpi
  | land_ldpi | land_mdpi | land_hdpi | land_xhdpi | land_xxhdpi | land_xxxhdpi
  | port_ldpi | port_mdpi | port_hdpi | port_xhdpi | port_xxhdpi | port_xxxhdpi
  deriving DecidableEq

/-- Attribute keys used in manifest emission (`resources.ts`, `ResourceKey`). -/
inductive ResourceKey
  | src | name | width | height | density | orientation
  deriving DecidableEq

/-- One required output image (`resources.ts`, `ResourcesImageConfig`). -/
structure ResourcesImageConfig where
  name : String
  width : Nat
  height : Nat
  density : Option Density := none
  orientation : Option Orientation := none
  deriving DecidableEq

/-- Per-(platform, type) catalog entry (`resources.ts`, `ResourcesTypeConfig`). -/
structure ResourcesTypeConfig where
  images : List ResourcesImageConfig
  nodeName : String
  nodeAttributes : List ResourceKey
  deriving DecidableEq

/-- The static resource catalog (`resources.ts`, `RESOURCES`). -/
def RESOURCES : Platform → ResourceType → ResourcesTypeConfig
  | .android, .icon =>
    { images :=
        [ { name := "drawable-ldpi-icon.png", width := 36, height := 36, density := some .ldpi }
        , { name := "drawable-mdpi-icon.png", width := 48, height := 48, density := some .mdpi }
        , { name := "drawable-hdpi-icon.png", width := 72, height := 72, density := some .hdpi }
        , { name := "drawable-xhdpi-icon.png", width := 96, height := 96, density := some .xhdpi }
        , { name := "drawable-xxhdpi-icon.png", width := 144, height := 144, density := some .xxhdpi }
        , { name := "drawable-xxxhdpi-icon.png", width := 192, height := 192, density := some .xxxhdpi } ]
      nodeName := "icon"
      nodeAttributes := [.src, .density] }
  | .android, .splash =>
    { images :=
        [ { name := "drawable-land-ldpi-screen.png", width := 320, height := 240, density := some .land_ldpi, orientation := some .landscape }
        , { name := "drawable-land-mdpi-screen.png", width := 480, height := 320, density := some .land_mdpi, orientation := some .landscape }
        , { name := "drawable-land-hdpi-screen.png", width := 800, height := 480, density := some .land_hdpi, orientation := some .landscape }
        , { name := "drawable-land-xhdpi-screen.png", width := 1280, height := 720, density := some .land_xhdpi, orientation := some .landscape }
        , { name := "drawable-land-xxhdpi-screen.png", width := 1600, height := 960, density := some .land_xxhdpi, orientation := some .landscape }
        , { name := "drawable-land-xxxhdpi-screen.png", width := 1920, height := 1280, density := some .land_xxxhdpi, orientation := some .landscape }
        , { name := "drawable-port-ldpi-screen.png", width := 240, height := 320, density := some .port_ldpi, orientation := some .portrait }
        , { name := "drawable-port-mdpi-screen.png", width := 320, height := 480, density := some .port_mdpi, orientation := some .portrait }
        , { name := "drawable-port-hdpi-screen.png", width := 480, height := 800, density := some .port_hdpi, orientation := some .portrait }
        , { name := "drawable-port-xhdpi-screen.png", width := 720, height := 1280, density := some .port_xhdpi, orientation := some .portrait }
        , { name := "drawable-port-xxhdpi-screen.png", width := 960, height := 1600, density := some .port_xxhdpi, orientation := some .portrait }
        , { name := "drawable-port-xxxhdpi-screen.png", width := 1280, height := 1920, density := some .port_xxxhdpi, orientation := some .portrait } ]
      nodeName := "splash"
      nodeAttributes := [.src, .density] }
  | .ios, .icon =>
    { images :=
        [ { name := "icon.png", width := 57, height := 57 }
        , { name := "icon@2x.png", width := 114, height := 114 }
        , { name := "icon-40.png", width := 40, height := 40 }
        , { name := "icon-40@2x.png", width := 80, height := 80 }
        , { name := "icon-40@3x.png", width := 120, height := 120 }
        , { name := "icon-50.png", width := 50, height := 50 }
        , { name := "icon-50@2x.png", width := 100, height := 100 }
        , { name := "icon-60.png", width := 60, height := 60 }
        , { name := "icon-60@2x.png", width := 120, height := 120 }
        , { name := "icon-60@3x.png", width := 180, height := 180 }
        , { name := "icon-72.png", width := 72, height := 72 }
        , { name := "icon-72@2x.png", width := 144, height := 144 }
        , { name := "icon-76.png", width := 76, height := 76 }
        , { name := "icon-76@2x.png", width := 152, height := 152 }
        , { name := "icon-83.5@2x.png", width := 167, height := 167 }
        , { name := "icon-small.png", width := 29, height := 29 }
        , { name := "icon-small@2x.png", width := 58, height := 58 }
        , { name := "icon-small@3x.png", width := 87, height := 87 }
        , { name := "icon-1024.png", width := 1024, height := 1024 } ]
      nodeName := "icon"
      nodeAttributes := [.src, .width, .height] }
  | .ios, .splash =>
    { images :=
        [ { name := "Default-568h@2x~iphone.png", width := 640, height := 1136, orientation := some .portrait }
        , { name := "Default-667h.png", width := 750, height := 1334, orientation := some .portrait }
        , { name := "Default-736h.png", width := 1242, height := 2208, orientation := some .portrait }
        , { name := "Default-2436h.png", width := 1125, height := 2436, orientation := some .portrait }
        , { name := "Default-Landscape-736h.png", width := 2208, height := 1242, orientation := some .landscape }
        , { name := "Default-Landscape-2436h.png", width := 2436, height := 1125, orientation := some .landscape }
        , { name := "Default-Landscape@2x~ipad.png", width := 2048, height := 1536, orientation := some .landscape }
        , { name := "Default-Landscape@~ipadpro.png", width := 2732, height := 2048, orientation := some .landscape }
        , { name := "Default-Landscape~ipad.png", width := 1024, height := 768, orientation := some .landscape }
        , { name := "Default-Portrait@2x~ipad.png", width := 1536, height := 2048, orientation := some .portrait }
        , { name := "Default-Portrait@~ipadpro.png", width := 2048, height := 2732, orientation := some .portrait }
        , { name := "Default-Portrait~ipad.png", width := 768, height := 1024, orientation := some .portrait }
        , { name := "Default@2x~iphone.png", width := 640, height := 960, orientation := some .portrait }
        , { name := "Default~iphone.png", width := 320, height := 480, orientation := some .portrait }
        , { name := "Default@2x~ipad~anyany.png", width := 2732, height := 2732 }
        , { name := "Default@2x~ipad~comany.png", width := 1278, height := 2732, orientation := some .portrait }
        , { name := "Default@2x~iphone~anyany.png", width := 1334, height := 1334 }
        , { name := "Default@2x~iphone~comany.png", width := 750, height := 1334, orientation := some .portrait }
        , { name := "Default@2x~iphone~comcom.png", width := 1334, height := 750, orientation := some .landscape }
        , { name := "Default@3x~iphone~anyany.png", width := 2436, height := 2436 }
        , { name := "Default@3x~iphone~anycom.png", width := 2436, height := 1242, orientation := some .landscape }
        , { name := "Default@3x~iphone~comany.png", width := 1242, height := 2436, orientation := some .portrait } ]
      nodeName := "splash"
      nodeAttributes := [.src, .width, .height] }

/-- The minimum width literal appearing in each type's validator
(`requiredWidth` in `RESOURCE_VALIDATORS`). -/
def requiredMinWidth : ResourceType → Nat
  | .icon => 1024
  | .splash => 2732

/-- The minimum height literal appearing in each type's validator
(`requiredHeight` in `RESOURCE_VALIDATORS`). -/
def requiredMinHeight : ResourceType → Nat
  | .icon => 1024
  | .splash => 2732

/-- All catalog image specs for a resource type, across both platforms. -/
def allImages (t : ResourceType) : List ResourcesImageConfig :=
  (RESOURCES .android t).images ++ (RESOURCES .ios t).images

/-- Largest width among a type's catalog image specs. -/
def maxImageWidth (t : ResourceType) : Nat :=
  (allImages t).foldl (fun acc i => max acc i.width) 0

/-- Largest height among a type's catalog image specs. -/
def maxImageHeight (t : ResourceType) : Nat :=
  (allImages t).foldl (fun acc i => max acc i.height) 0

/-- Extract the error code of a validator outcome, if any. -/
def errCode : Except ValidationError Unit → Option ValidationErrorCode
  | .error e => some e.code
  | .ok _ => none

theorem validator_png_ok_iff (t : ResourceType) (s : String) (w h : Nat) :
    RESOURCE_VALIDATORS t s ⟨"png", some w, some h⟩ = .ok () ↔
      requiredMinWidth t ≤ w ∧ requiredMinHeight t ≤ h := by
  cases t <;>
    simp only [RESOURCE_VALIDATORS, validateIcon, validateSplash, requiredMinWidth,
      requiredMinHeight, falsy, dimLt] <;>
    split <;>
    simp_all <;>
    omega

theorem validator_png_size_code (t : ResourceType) (s : String) (w h : Option Nat) :
    errCode (RESOURCE_VALIDATORS t s ⟨"png", w, h⟩) = some .BAD_IMAGE_SIZE ↔
      (falsy w || falsy h || dimLt w (requiredMinWidth t) || dimLt h (requiredMinHeight t)) = true := by
  cases t
  all_goals
    simp only [RESOURCE_VALIDATORS, validateIcon, validateSplash, requiredMinWidth,
      requiredMinHeight]
    rw [if_neg (by decide)]
    split <;> simp_all [errCode]

theorem validator_bad_format (t : ResourceType) (s : String) (m : Metadata)
    (hfmt : m.format ≠ "png") :
    errCode (RESOURCE_VALIDATORS t s m) = some .BAD_IMAGE_FORMAT := by
  cases t <;>
    simp only [RESOURCE_VALIDATORS, validateIcon, validateSplash] <;>
    simp [errCode, hfmt]

/-- C1: for every resource type the minimum width and height demanded by that
type's validator (the point at which acceptance of a png source flips) equal
the largest width and largest height among all catalog image specs of that
type across both platforms, namely 1024x1024 for icons and 2732x2732 for
splash screens. -/
theorem catalog_self_consistency :
    ∀ t : ResourceType,
      requiredMinWidth t = maxImageWidth t ∧
      requiredMinHeight t = maxImageHeight t ∧
      (∀ s w h, RESOURCE_VALIDATORS t s ⟨"png", some w, some h⟩ = .ok () ↔
        maxImageWidth t ≤ w ∧ maxImageHeight t ≤ h) ∧
      (maxImageWidth .icon = 1024 ∧ maxImageHeight .icon = 1024 ∧
       maxImageWidth .splash = 2732 ∧ maxImageHeight .splash = 2732) := by
  intro t
  refine ⟨?_, ?_, ?_, by decide⟩
  · cases t <;> decide
  · cases t <;> decide
  · intro s w h
    have hw : maxImageWidth t = requiredMinWidth t := by cases t <;> decide
    have hh : maxImageHeight t = requiredMinHeight t := by cases t <;> decide
    rw [hw, hh]
    exact validator_png_ok_iff t s w h

/-- C5: the icon validator rejects a 1024x1023 png with BAD_IMAGE_SIZE,
accepts a 1024x1024 png, and rejects a 1024x1024 jpeg with
BAD_IMAGE_FORMAT. -/
theorem icon_validator_examples :
    errCode (RESOURCE_VALIDATORS .icon "source.png" ⟨"png", some 1024, some 1023⟩)
        = some .BAD_IMAGE_SIZE ∧
      RESOURCE_VALIDATORS .icon "source.png" ⟨"png", some 1024, some 1024⟩ = .ok () ∧
      errCode (RESOURCE_VALIDATORS .icon "source.jpg" ⟨"jpeg", some 1024, some 1024⟩)
        = some .BAD_IMAGE_FORMAT := by
  refine ⟨by decide, rfl, by decide⟩

/-- C6: for every resource type, on a png source the validator reports
BAD_IMAGE_SIZE exactly when a dimension is absent or zero or strictly below
that type's required minimum, and a png source whose dimensions are at least
the required minimum always validates. -/
theorem validator_size_characterization (t : ResourceType) (s : String) (w h : Option Nat) :
    (errCode (RESOURCE_VALIDATORS t s ⟨"png", w, h⟩) = some .BAD_IMAGE_SIZE ↔
      (w = none ∨ w = some 0 ∨ h = none ∨ h = some 0 ∨
        (∃ n, w = some n ∧ n < requiredMinWidth t) ∨
        (∃ n, h = some n ∧ n < requiredMinHeight t))) ∧
    (∀ wn hn, w = some wn → h = some hn →
      requiredMinWidth t ≤ wn → requiredMinHeight t ≤ hn →
      RESOURCE_VALIDATORS t s ⟨"png", w, h⟩ = .ok ()) := by
  constructor
  · rw [validator_png_size_code]
    cases w <;> cases h <;> simp [falsy, dimLt] <;> omega
  · intro wn hn hw hh hwle hhle
    subst hw
    subst hh
    exact (validator_png_ok_iff t s wn hn).mpr ⟨hwle, hhle⟩

/-- Witness for C6 at concrete inputs: a 900x2000 png icon source is reported
undersized, and a 2000x2000 png icon source validates. -/
theorem validator_size_characterization_witness :
    errCode (RESOURCE_VALIDATORS .icon "a.png" ⟨"png", some 900, some 2000⟩)
        = some .BAD_IMAGE_SIZE ∧
      RESOURCE_VALIDATORS .icon "a.png" ⟨"png", some 2000, some 2000⟩ = .ok () :=
  ⟨(validator_size_characterization .icon "a.png" (some 900) (some 2000)).1.mpr
      (Or.inr (Or.inr (Or.inr (Or.inr (Or.inl ⟨900, rfl, by decide⟩))))),
    (validator_size_characterization .icon "a.png" (some 2000) (some 2000)).2
      2000 2000 rfl rfl (by decide) (by decide)⟩

/-- C10: in every validator the format check precedes the size check: a source
whose format is not png is rejected with BAD_IMAGE_FORMAT whatever its width
and height. -/
theorem format_check_first (t : ResourceType) (s : String) (m : Metadata)
    (hfmt : m.format ≠ "png") :
    errCode (RESOURCE_VALIDATORS t s m) = some .BAD_IMAGE_FORMAT :=
  validator_bad_format t s m hfmt

/-- Witness for C10: an undersized jpeg icon source is rejected for its format,
not its size. -/
theorem format_check_first_witness :
    errCode (RESOURCE_VALIDATORS .icon "a.jpg" ⟨"jpeg", some 10, some 10⟩)
      = some .BAD_IMAGE_FORMAT :=
  format_check_first .icon "a.jpg" ⟨"jpeg", some 10, some 10⟩ (by decide)

/-- Outcome of `sharp(await readFile(source))` for one path: either a decoded
image described by its metadata, or a generic read/decode error.  The
filesystem and codec collaborators are modelled as this environment
function. -/
inductive LoadResult
  | ok (m : Metadata)
  | err (msg : String)

/-- Per-candidate failure as accumulated by `resolveSourceImage`: either a
structured `ValidationError` thrown by the validator or any other error
thrown while reading or decoding. -/
inductive SourceError
  | validation (e : ValidationError)
  | generic (msg : String)
  deriving DecidableEq

/-- One iteration of the try block in `resolveSourceImage` (`image.ts`): read
and decode the candidate, then run the type's validator; any thrown error is
captured. -/
def attemptSource (env : String → LoadResult) (t : ResourceType) (source : String) :
    Except SourceError Metadata :=
  match env source with
  | .err msg => .error (.generic msg)
  | .ok m =>
    match RESOURCE_VALIDATORS t source m with
    | .error e => .error (.validation e)
    | .ok () => .ok m

/-- Aggregate error thrown when no candidate is viable (`error.ts`,
`ResolveSourceImageError`): message plus the retained validation errors. -/
structure ResolveSourceImageError where
  message : String
  errors : List ValidationError
  deriving DecidableEq

/-- Rendering of one accumulated error for the errstream warning line
(`util.format` of the caught error). -/
def showSourceError : SourceError → String
  | .validation e => e.message
  | .generic msg => msg

/-- One warning line written to `errstream` for an accumulated failure
(`image.ts`, the `util.format` call plus the appended newline). -/
def errorLine (source : String) (e : SourceError) : String :=
  "WARN: Error with source file " ++ source ++ ": " ++ showSourceError e ++ "\n"

/-- The validation errors retained in the aggregate error (`image.ts`,
`errors.map(([, error]) => error).filter(e => e instanceof ValidationError)`). -/
def validationErrors (l : List (String × SourceError)) : List ValidationError :=
  (l.map Prod.snd).filterMap fun e =>
    match e with
    | .validation v => some v
    | .generic _ => none

/-- Observable outcome of one `resolveSourceImage` call: which candidate paths
were read and decoded, which warning lines were written to `errstream`, and
the returned value or thrown aggregate error. -/
structure ResolveOutcome where
  opened : List String
  written : List String
  result : Except ResolveSourceImageError (String × Metadata)

/-- The aggregate error message (`image.ts`). -/
def noViableMessage (sources : List String) : String :=
  "Could not find suitable source image. Looked at: " ++ String.intercalate ", " sources

/-- Tail of `resolveSourceImage` once the candidate loop is exhausted: write
one warning line per accumulated failure when `errstream` is present, then
throw the aggregate error over the retained validation errors. -/
def resolveFailure (sources : List String) (errstream : Bool)
    (errors : List (String × SourceError)) (opened : List String) : ResolveOutcome :=
  { opened := opened
    written := if errstream then errors.map (fun p => errorLine p.1 p.2) else []
    result := .error ⟨noViableMessage sources, validationErrors errors⟩ }

/-- Candidate loop of `resolveSourceImage` (`image.ts`): try each source in
order, return the first viable one, accumulate failures otherwise. -/
def resolveGo (env : String → LoadResult) (t : ResourceType) (sources : List String)
    (errstream : Bool) :
    List String → List String → List (String × SourceError) → ResolveOutcome
  | [], opened, errors => resolveFailure sources errstream errors opened
  | s :: rest, opened, errors =>
    match attemptSource env t s with
    | .ok m => { opened := opened ++ [s], written := [], result := .ok (s, m) }
    | .error e => resolveGo env t sources errstream rest (opened ++ [s]) (errors ++ [(s, e)])

/-- Embedding of `resolveSourceImage` (`image.ts`): the environment stands for
the filesystem and sharp collaborators, `errstream` for whether a diagnostic
sink was supplied. -/
def resolveSourceImage (env : String → LoadResult) (t : ResourceType)
    (sources : List String) (errstream : Bool) : ResolveOutcome :=
  resolveGo env t sources errstream sources [] []

/-- Boolean success test on an `Except` value. -/
def exceptIsOk : Except ε α → Bool
  | .ok _ => true
  | .error _ => false

/-- The error a candidate fails with, under the convention that a passing
candidate maps to a dummy generic error (only used under hypotheses that the
candidate fails). -/
def sourceErrorOf (env : String → LoadResult) (t : ResourceType) (s : String) : SourceError :=
  match attemptSource env t s with
  | .error e => e
  | .ok _ => .generic ""

theorem resolveGo_first_pass (env : String → LoadResult) (t : ResourceType)
    (full : List String) (es : Bool) (s : String) (m : Metadata)
    (hs : attemptSource env t s = .ok m) :
    ∀ (pre post opened : List String) (errors : List (String × SourceError)),
      (∀ p ∈ pre, exceptIsOk (attemptSource env t p) = false) →
      resolveGo env t full es (pre ++ s :: post) opened errors =
        { opened := opened ++ pre ++ [s], written := [], result := .ok (s, m) } := by
  intro pre
  induction pre with
  | nil =>
    intro post opened errors _
    simp [resolveGo, hs]
  | cons p ps ih =>
    intro post opened errors hfail
    have hp : exceptIsOk (attemptSource env t p) = false := hfail p (by simp)
    cases hE : attemptSource env t p with
    | ok m2 => rw [hE] at hp; simp [exceptIsOk] at hp
    | error e =>
      simp only [List.cons_append, resolveGo, hE, List.append_eq]
      rw [ih post (opened ++ [p]) (errors ++ [(p, e)]) fun q hq => hfail q (by simp [hq])]
      simp

theorem resolveGo_all_fail (env : String → LoadResult) (t : ResourceType)
    (full : List String) (es : Bool) :
    ∀ (rest opened : List String) (errors : List (String × SourceError)),
      (∀ p ∈ rest, exceptIsOk (attemptSource env t p) = false) →
      resolveGo env t full es rest opened errors =
        resolveFailure full es (errors ++ rest.map fun p => (p, sourceErrorOf env t p))
          (opened ++ rest) := by
  intro rest
  induction rest with
  | nil =>
    intro opened errors _
    simp [resolveGo]
  | cons p ps ih =>
    intro opened errors hfail
    have hp : exceptIsOk (attemptSource env t p) = false := hfail p (by simp)
    cases hE : attemptSource env t p with
    | ok m2 => rw [hE] at hp; simp [exceptIsOk] at hp
    | error e =>
      simp only [resolveGo, hE]
      rw [ih (opened ++ [p]) (errors ++ [(p, e)]) fun q hq => hfail q (by simp [hq])]
      have he : sourceErrorOf env t p = e := by simp [sourceErrorOf, hE]
      simp [he]

theorem resolveGo_ok_written (env : String → LoadResult) (t : ResourceType)
    (full : List String) (es : Bool) :
    ∀ (rest opened : List String) (errors : List (String × SourceError)),
      exceptIsOk (resolveGo env t full es rest opened errors).result = true →
      (resolveGo env t full es rest opened errors).written = [] := by
  intro rest
  induction rest with
  | nil =>
    intro opened errors hok
    simp [resolveGo, resolveFailure, exceptIsOk] at hok
  | cons p ps ih =>
    intro opened errors hok
    cases hE : attemptSource env t p with
    | ok m2 => simp [resolveGo, hE]
    | error e =>
      simp only [resolveGo, hE] at hok ⊢
      exact ih (opened ++ [p]) (errors ++ [(p, e)]) hok

/-- C2: `resolveSourceImage` returns the first candidate in the
caller-supplied order whose validation succeeds, and the candidates after it
are never read or decoded: when every path in `pre` fails and `s` passes, the
call on `pre ++ s :: post` returns `s` with its decoded image, and the paths
read are exactly `pre ++ [s]`, none of `post`. -/
theorem resolver_returns_first_passing (env : String → LoadResult) (t : ResourceType)
    (es : Bool) (pre post : List String) (s : String) (m : Metadata)
    (hfail : ∀ p ∈ pre, exceptIsOk (attemptSource env t p) = false)
    (hpass : attemptSource env t s = .ok m) :
    (resolveSourceImage env t (pre ++ s :: post) es).result = .ok (s, m) ∧
      (resolveSourceImage env t (pre ++ s :: post) es).opened = pre ++ [s] := by
  unfold resolveSourceImage
  rw [resolveGo_first_pass env t (pre ++ s :: post) es s m hpass pre post [] [] hfail]
  simp

/-- Environment for witnesses: path a holds a correctly sized jpeg, every
other path a correctly sized png. -/
def env2 : String → LoadResult := fun s =>
  if s = "a" then .ok ⟨"jpeg", some 1024, some 1024⟩
  else .ok ⟨"png", some 1024, some 1024⟩

/-- Witness for C2: with candidates a (jpeg, fails), b (passes), c (would also
pass), the resolver returns b and reads only a and b. -/
theorem resolver_returns_first_passing_witness :
    (resolveSourceImage env2 .icon (["a"] ++ "b" :: ["c"]) false).result
        = .ok ("b", ⟨"png", some 1024, some 1024⟩) ∧
      (resolveSourceImage env2 .icon (["a"] ++ "b" :: ["c"]) false).opened = ["a"] ++ ["b"] :=
  resolver_returns_first_passing env2 .icon false ["a"] ["c"] "b"
    ⟨"png", some 1024, some 1024⟩
    (by intro p hp; simp only [List.mem_singleton] at hp; subst hp; rfl)
    rfl

/-- Retention of the per-candidate validation failures, in candidate order. -/
theorem validationErrors_of_failures (env : String → LoadResult) (t : ResourceType) :
    ∀ l : List String,
      (∀ p ∈ l, ∃ v, attemptSource env t p = .error (.validation v)) →
      List.Forall₂ (fun p v => attemptSource env t p = .error (.validation v)) l
        (validationErrors (l.map fun p => (p, sourceErrorOf env t p))) := by
  intro l
  induction l with
  | nil =>
    intro _
    exact List.Forall₂.nil
  | cons p ps ih =>
    intro hl
    obtain ⟨v, hv⟩ := hl p (by simp)
    have hse : sourceErrorOf env t p = .validation v := by simp [sourceErrorOf, hv]
    have hstep : validationErrors ((p :: ps).map fun q => (q, sourceErrorOf env t q))
        = v :: validationErrors (ps.map fun q => (q, sourceErrorOf env t q)) := by
      simp [validationErrors, hse]
    rw [hstep]
    exact List.Forall₂.cons hv (ih fun q hq => hl q (by simp [hq]))

/-- Projection of the validation errors carried by a resolver outcome. -/
def resultErrors : Except ResolveSourceImageError (String × Metadata) → List ValidationError
  | .error e => e.errors
  | .ok _ => []

/-- C3: when every candidate fails validation (or the list is empty),
`resolveSourceImage` throws a `ResolveSourceImageError` whose carried failure
list has one entry per candidate, the per-candidate validation failures in
candidate order. -/
theorem resolver_all_fail_error (env : String → LoadResult) (t : ResourceType)
    (es : Bool) (sources : List String)
    (h : ∀ p ∈ sources, ∃ v, attemptSource env t p = .error (.validation v)) :
    exceptIsOk (resolveSourceImage env t sources es).result = false ∧
      (resultErrors (resolveSourceImage env t sources es).result).length = sources.length ∧
      List.Forall₂ (fun p v => attemptSource env t p = .error (.validation v)) sources
        (resultErrors (resolveSourceImage env t sources es).result) := by
  have hfail : ∀ p ∈ sources, exceptIsOk (attemptSource env t p) = false := by
    intro p hp
    obtain ⟨v, hv⟩ := h p hp
    rw [hv]
    rfl
  unfold resolveSourceImage
  rw [resolveGo_all_fail env t sources es sources [] [] hfail]
  have hforall := validationErrors_of_failures env t sources h
  refine ⟨rfl, ?_, ?_⟩
  · simpa [resolveFailure, resultErrors] using hforall.length_eq.symm
  · simpa [resolveFailure, resultErrors] using hforall

/-- Environment for witnesses: every path holds a correctly sized jpeg. -/
def env3 : String → LoadResult := fun _ => .ok ⟨"jpeg", some 4096, some 4096⟩

/-- Witness for C3: with two all-failing candidates the resolver throws, the
carried list has two entries, and they are the candidates' failures in
order. -/
theorem resolver_all_fail_error_witness :
    exceptIsOk (resolveSourceImage env3 .icon ["a", "b"] false).result = false ∧
      (resultErrors (resolveSourceImage env3 .icon ["a", "b"] false).result).length
        = (["a", "b"] : List String).length ∧
      List.Forall₂ (fun p v => attemptSource env3 .icon p = .error (.validation v))
        ["a", "b"] (resultErrors (resolveSourceImage env3 .icon ["a", "b"] false).result) :=
  resolver_all_fail_error env3 .icon false ["a", "b"]
    (by
      intro p hp
      simp only [List.mem_cons, List.mem_singleton, List.not_mem_nil, or_false] at hp
      rcases hp with hp | hp <;> subst hp <;> exact ⟨_, rfl⟩)

/-- C4 counterexample: with candidates a (fails) and b (passes) and a supplied
errstream, resolution succeeds, a per-candidate failure was encountered, and
yet nothing at all is written to the errstream, contradicting the claim that
every per-candidate failure is written whether resolution succeeds or
fails. -/
theorem errstream_counterexample :
    exceptIsOk (attemptSource env2 .icon "a") = false ∧
      exceptIsOk (resolveSourceImage env2 .icon ["a", "b"] true).result = true ∧
      (resolveSourceImage env2 .icon ["a", "b"] true).written = [] :=
  ⟨rfl, rfl, rfl⟩

/-- C4 amended: per-candidate failures are written to a supplied errstream
only when the overall resolution fails; in that case one warning line per
candidate failure is written, in candidate order, and when resolution
succeeds nothing is written. -/
theorem errstream_warnings (env : String → LoadResult) (t : ResourceType)
    (sources : List String) :
    ((∀ p ∈ sources, exceptIsOk (attemptSource env t p) = false) →
      (resolveSourceImage env t sources true).written =
        sources.map fun p => errorLine p (sourceErrorOf env t p)) ∧
    (∀ es : Bool, exceptIsOk (resolveSourceImage env t sources es).result = true →
      (resolveSourceImage env t sources es).written = []) := by
  constructor
  · intro hfail
    unfold resolveSourceImage
    rw [resolveGo_all_fail env t sources true sources [] [] hfail]
    simp [resolveFailure]
  · intro es hok
    exact resolveGo_ok_written env t sources es sources [] [] hok

/-- Witness for the amended C4: with two all-failing candidates and an
errstream, both warning lines are written; with a passing candidate and an
errstream, nothing is written. -/
theorem errstream_warnings_witness :
    (resolveSourceImage env3 .icon ["a", "b"] true).written
        = (["a", "b"] : List String).map (fun p => errorLine p (sourceErrorOf env3 .icon p)) ∧
      (resolveSourceImage env2 .icon ["a", "b"] true).written = [] :=
  ⟨(errstream_warnings env3 .icon ["a", "b"]).1
      (by
        intro p hp
        simp only [List.mem_cons, List.mem_singleton, List.not_mem_nil, or_false] at hp
        rcases hp with hp | hp <;> subst hp <;> rfl),
    (errstream_warnings env2 .icon ["a", "b"]).2 true rfl⟩

/-- Bytes of an encoded file. -/
abbrev Bytes := List Nat

/-- Png encoder options (`sharp`, `PngOptions`), reduced to the fields the
pipeline is sensitive to. -/
structure PngOptions where
  quality : Option Nat := none
  deriving DecidableEq

/-- Model of a sharp pipeline value: decoded source metadata plus the pending
resize and png-encode steps applied to it. -/
structure SharpImage where
  meta : Metadata
  resizeTo : Option (Nat × Nat) := none
  pngOpts : Option PngOptions := none
  deriving DecidableEq

/-- Target dimensions of one generated image (`image.ts`, `ImageSchema`). -/
structure ImageSchema where
  width : Nat
  height : Nat
  deriving DecidableEq

/-- Embedding of `transformImage` (`image.ts`):
`src.resize(image.width, image.height)`. -/
def transformImage (image : ImageSchema) (src : SharpImage) : SharpImage :=
  { src with resizeTo := some (image.width, image.height) }

/-- The `.png(options)` step applied to a pipeline in `generateImage`. -/
def pngStep (src : SharpImage) (o : PngOptions) : SharpImage :=
  { src with pngOpts := some o }

/-- The encoded buffer computed in `generateImage` before any write:
`options ? pipeline.png(options).toBuffer() : pipeline.toBuffer()`, where the
codec collaborator `tb` stands for `toBuffer` and may fail. -/
def encodedBuffer (tb : SharpImage → Except String Bytes) (image : ImageSchema)
    (src : SharpImage) (options : Option PngOptions) : Except String Bytes :=
  let pipeline := transformImage image src
  match options with
  | some o => tb (pngStep pipeline o)
  | none => tb pipeline

/-- Embedding of `generateImage` (`image.ts`): resize, encode, then write the
whole encoded buffer to `dest` with a single `writeFile`; the second component
lists the file writes the call performs. -/
def generateImage (tb : SharpImage → Except String Bytes) (image : ImageSchema)
    (src : SharpImage) (dest : String) (options : Option PngOptions) :
    Except String Unit × List (String × Bytes) :=
  match encodedBuffer tb image src options with
  | .error e => (.error e, [])
  | .ok b => (.ok (), [(dest, b)])

/-- C9: `generateImage` performs at most one file write; when encoding
succeeds it performs exactly one write, of the entire encoded buffer, to the
destination path; when encoding fails before the write, it performs no write
at all. -/
theorem generateImage_single_write (tb : SharpImage → Except String Bytes)
    (image : ImageSchema) (src : SharpImage) (dest : String) (options : Option PngOptions) :
    (generateImage tb image src dest options).2.length ≤ 1 ∧
    (∀ b, encodedBuffer tb image src options = .ok b →
      generateImage tb image src dest options = (.ok (), [(dest, b)])) ∧
    (∀ e, encodedBuffer tb image src options = .error e →
      generateImage tb image src dest options = (.error e, [])) := by
  cases h : encodedBuffer tb image src options with
  | ok b =>
    refine ⟨?_, ?_, ?_⟩
    · simp [generateImage, h]
    · intro b2 hb2; cases hb2; simp [generateImage, h]
    · intro e he; cases he
  | error e =>
    refine ⟨?_, ?_, ?_⟩
    · simp [generateImage, h]
    · intro b2 hb2; cases hb2
    · intro e2 he2; cases he2; simp [generateImage, h]

/-- Codec collaborator for witnesses: always encodes to a fixed buffer. -/
def tbOk : SharpImage → Except String Bytes := fun _ => .ok [1, 2, 3]

/-- Codec collaborator for witnesses: always fails to encode. -/
def tbErr : SharpImage → Except String Bytes := fun _ => .error "encode failed"

/-- Source pipeline used by generator witnesses. -/
def src9 : SharpImage := { meta := ⟨"png", some 1024, some 1024⟩ }

/-- Witness for C9: with a succeeding encoder the call writes the whole buffer
to the destination once; with a failing encoder it writes nothing. -/
theorem generateImage_single_write_witness :
    generateImage tbOk ⟨36, 36⟩ src9 "dest.png" none = (.ok (), [("dest.png", [1, 2, 3])]) ∧
      generateImage tbErr ⟨36, 36⟩ src9 "dest.png" none = (.error "encode failed", []) :=
  ⟨(generateImage_single_write tbOk ⟨36, 36⟩ src9 "dest.png" none).2.1 [1, 2, 3] rfl,
    (generateImage_single_write tbErr ⟨36, 36⟩ src9 "dest.png" none).2.2 "encode failed" rfl⟩

/-- One produced output record (spec section 3, `GeneratedImage`): catalog
spec plus source and destination paths. -/
structure GeneratedImage where
  spec : ResourcesImageConfig
  src : String
  dest : String
  deriving DecidableEq

/-- Observable trace of one platform-runner invocation: how many times the
source resolver and the image generator were invoked, the produced records,
and the file writes performed. -/
structure RunTrace where
  resolverCalls : Nat
  generatorCalls : Nat
  generated : List GeneratedImage
  writes : List (String × Bytes)
  deriving DecidableEq

/-- Failure of one platform-runner invocation: a propagated resolver error or
a propagated generator error. -/
inductive RunError
  | resolve (e : ResolveSourceImageError)
  | generation (msg : String)

/-- Directory name of a platform in the output tree. -/
def platformName : Platform → String
  | .android => "android"
  | .ios => "ios"

/-- Directory name of a resource type in the output tree. -/
def typeDirName : ResourceType → String
  | .icon => "icon"
  | .splash => "splash"

/-- Destination path of one generated file under the output root. -/
def destPath (resourcesDirectory : String) (platform : Platform) (t : ResourceType)
    (name : String) : String :=
  resourcesDirectory ++ "/" ++ platformName platform ++ "/" ++ typeDirName t ++ "/" ++ name

/-- Generation phase for one resolved resource type: one image-generator call
per catalog image spec, in catalog order, reusing the single resolved
source. -/
def generateAll (tb : SharpImage → Except String Bytes) (src : SharpImage) (srcPath : String)
    (resourcesDirectory : String) (platform : Platform) (t : ResourceType)
    (options : Option PngOptions) :
    List ResourcesImageConfig → Except RunError (List GeneratedImage × List (String × Bytes) × Nat)
  | [] => .ok ([], [], 0)
  | i :: rest =>
    let dest := destPath resourcesDirectory platform t i.name
    match generateImage tb ⟨i.width, i.height⟩ src dest options with
    | (.error e, _) => .error (.generation e)
    | (.ok (), ws) =>
      match generateAll tb src srcPath resourcesDirectory platform t options rest with
      | .error e => .error e
      | .ok (gs, ws2, n) =>
        .ok ({ spec := i, src := srcPath, dest := dest } :: gs, ws ++ ws2, n + 1)

/-- Modelled from the spec: the platform runner `run` of `platform.ts` is not
among the provided sources (only its test is).  Following the spec (section
4.4) and the test, for each requested resource type in caller order it invokes
the source resolver exactly once with that type's candidate sources, then
invokes the image generator once per catalog image spec of that type, resizing
the single resolved source to each spec's dimensions and writing to the spec's
destination path under the output root, appending one GeneratedImage per spec
in catalog order; any resolver or generator failure is propagated. -/
def run (env : String → LoadResult) (tb : SharpImage → Except String Bytes)
    (platform : Platform) (resourcesDirectory : String) (options : Option PngOptions) :
    List (ResourceType × List String) → Except RunError RunTrace
  | [] => .ok ⟨0, 0, [], []⟩
  | (t, srcs) :: rest =>
    match (resolveSourceImage env t srcs false).result with
    | .error e => .error (.resolve e)
    | .ok (srcPath, meta) =>
      match generateAll tb { meta := meta } srcPath resourcesDirectory platform t options
          (RESOURCES platform t).images with
      | .error e => .error e
      | .ok (gs, ws, n) =>
        match run env tb platform resourcesDirectory options rest with
        | .error e => .error e
        | .ok tr =>
          .ok ⟨1 + tr.resolverCalls, n + tr.generatorCalls, gs ++ tr.generated, ws ++ tr.writes⟩

/-- Trace of a successful run, with an all-zero default for a failed one. -/
def traceOrDefault : Except RunError RunTrace → RunTrace
  | .ok tr => tr
  | .error _ => ⟨0, 0, [], []⟩

/-- Whether a run succeeded. -/
def runOk : Except RunError RunTrace → Bool
  | .ok _ => true
  | .error _ => false

/-- Environment for the runner claim: every path holds a valid 1024x1024
png. -/
def env7 : String → LoadResult := fun _ => .ok ⟨"png", some 1024, some 1024⟩

/-- C7: running the platform runner for android with the icon type requested
and a valid 1024x1024 png source succeeds, calls the source resolver exactly
once, calls the image generator once per catalog entry, and produces exactly
6 GeneratedImage entries, one per android icon density, whose output file
names are distinct and match the catalog. -/
theorem android_icon_run :
    runOk (run env7 tbOk .android "resources" none [(.icon, ["icon.png"])]) = true ∧
      (traceOrDefault (run env7 tbOk .android "resources" none
        [(.icon, ["icon.png"])])).resolverCalls = 1 ∧
      (traceOrDefault (run env7 tbOk .android "resources" none
        [(.icon, ["icon.png"])])).generatorCalls
        = (RESOURCES .android .icon).images.length ∧
      (traceOrDefault (run env7 tbOk .android "resources" none
        [(.icon, ["icon.png"])])).generated.length = 6 ∧
      ((traceOrDefault (run env7 tbOk .android "resources" none
        [(.icon, ["icon.png"])])).generated.map fun g => g.spec.name)
        = (RESOURCES .android .icon).images.map (fun i => i.name) ∧
      ((traceOrDefault (run env7 tbOk .android "resources" none
        [(.icon, ["icon.png"])])).generated.map fun g => g.spec.name).Nodup := by
  refine ⟨rfl, rfl, rfl, rfl, rfl, by decide⟩

/-- A file system state: contents by path. -/
abbrev FS := String → Option Bytes

/-- Apply a sequence of whole-file writes to a file system state, later writes
overwriting earlier ones. -/
def applyWrites (ws : List (String × Bytes)) (fs : FS) : FS :=
  ws.foldl (fun acc w => fun p => if p = w.1 then some w.2 else acc p) fs

/-- The last write to a given path in a write sequence, if any. -/
def lastWrite (ws : List (String × Bytes)) (p : String) : Option Bytes :=
  ws.foldl (fun acc w => if p = w.1 then some w.2 else acc) none

theorem lastWrite_foldl (p : String) (ws : List (String × Bytes)) :
    ∀ init : Option Bytes,
      ws.foldl (fun acc w => if p = w.1 then some w.2 else acc) init
        = match lastWrite ws p with
          | some b => some b
          | none => init := by
  induction ws with
  | nil => intro init; simp [lastWrite]
  | cons w ws ih =>
    intro init
    simp only [List.foldl_cons, lastWrite]
    rw [ih (if p = w.1 then some w.2 else init),
      ih (if p = w.1 then some w.2 else none)]
    cases hlw : ws.foldl (fun acc w => if p = w.1 then some w.2 else acc) none with
    | some b => simp [lastWrite, hlw]
    | none =>
      simp only [lastWrite, hlw]
      by_cases hp : p = w.1 <;> simp [hp]

theorem applyWrites_apply (ws : List (String × Bytes)) :
    ∀ (fs : FS) (p : String),
      applyWrites ws fs p
        = match lastWrite ws p with
          | some b => some b
          | none => fs p := by
  induction ws with
  | nil => intro fs p; simp [applyWrites, lastWrite]
  | cons w ws ih =>
    intro fs p
    simp only [applyWrites, List.foldl_cons] at ih ⊢
    rw [ih (fun q => if q = w.1 then some w.2 else fs q) p]
    have hl : lastWrite (w :: ws) p
        = match lastWrite ws p with
          | some b => some b
          | none => if p = w.1 then some w.2 else none := by
      simp only [lastWrite, List.foldl_cons]
      exact lastWrite_foldl p ws (if p = w.1 then some w.2 else none)
    rw [hl]
    cases lastWrite ws p with
    | some b => simp
    | none => by_cases hp : p = w.1 <;> simp [hp]

theorem applyWrites_idempotent (ws : List (String × Bytes)) (fs : FS) :
    applyWrites ws (applyWrites ws fs) = applyWrites ws fs := by
  funext p
  rw [applyWrites_apply ws (applyWrites ws fs) p, applyWrites_apply ws fs p]
  cases lastWrite ws p with
  | some b => rfl
  | none => rfl

/-- The writes performed by a run (a failed run is propagated before its
trace is observable). -/
def writesOf (r : Except RunError RunTrace) : List (String × Bytes) :=
  (traceOrDefault r).writes

/-- C8: the pipeline is deterministic: with identical inputs and identical
collaborator behavior the runner produces the identical GeneratedImage trace
(two runs are equal as values), `generateImage` on the same spec, source and
options produces the same result and writes the same bytes, and replaying the
run's writes over a file system already holding them changes nothing, so a
second identical run leaves every output file byte-for-byte identical. -/
theorem run_deterministic (env : String → LoadResult) (tb : SharpImage → Except String Bytes)
    (platform : Platform) (resourcesDirectory : String) (options : Option PngOptions)
    (requested : List (ResourceType × List String)) (fs0 : FS)
    (image : ImageSchema) (src : SharpImage) (dest : String) (genOptions : Option PngOptions) :
    run env tb platform resourcesDirectory options requested
        = run env tb platform resourcesDirectory options requested ∧
      generateImage tb image src dest genOptions = generateImage tb image src dest genOptions ∧
      applyWrites (writesOf (run env tb platform resourcesDirectory options requested))
          (applyWrites (writesOf (run env tb platform resourcesDirectory options requested)) fs0)
        = applyWrites (writesOf (run env tb platform resourcesDirectory options requested)) fs0 :=
  ⟨rfl, rfl, applyWrites_idempotent _ fs0⟩

end CordovaRes
